import Mathlib

/-!
Shallow embedding of the `CacheManager<T>` class (src/unnamed/part_000), a
generic stale-while-revalidate cache over a string-keyed persistent store.

Modelling choices:
* Time is an explicit `Int` parameter (`new Date()` at call time).
* The store cell under the instance's single key is `Option (RawCell T)`;
  `RawCell` records whether the stored string JSON-parses to an entry
  (`parsed`) or not (`malformed`), modelling `JSON.parse` as an external
  collaborator that either yields an `ICacheEntry` or throws.
* Date strings are `DateStr`: either a string parsing to an absolute time
  (`valid t`) or a string on which `new Date(s)` yields Invalid Date
  (`invalid s`); comparison with Invalid Date is `false` (NaN semantics).
* JavaScript truthiness of the cached value is a parameter
  `truthy : T → Bool` (falsy values: 0, "", false, null, NaN, ...).
* The fetch function's outcome at each invocation point is passed in as an
  oracle `fetch : Except String T`; `Except.error` models a rejected promise.
* The idle scheduler is modelled by a counter `pendingCallbacks` of
  registered-but-not-yet-run deferred callbacks; running one is the separate
  step `runDeferredCallback` (the async closure passed to
  `requestIdleCallbackFn`, which ignores its `deadline` argument).
* Log output is an append-only trace of `LogEvent`s in the state.
-/

namespace CacheSpec

/-- Model of a JavaScript date string: either it parses to an absolute time
`t` (as `toISOString` output always does) or `new Date(s)` yields an
Invalid Date whose numeric value is NaN. -/
inductive DateStr where
  | valid (t : Int)
  | invalid (s : String)
deriving DecidableEq, Repr

/-- Model of `new Date(s).valueOf()`: `none` is NaN (Invalid Date). -/
def parseDate : DateStr → Option Int
  | .valid t => some t
  | .invalid _ => none

/-- Model of the JavaScript comparison `new Date(now) > exp` on dates:
numeric comparison, and any comparison against NaN is `false`. -/
def dateGt (now : Int) : Option Int → Bool
  | some e => decide (now > e)
  | none => false

/-- The stored envelope `ICacheEntry<T> = { expiration: string; value: T }`. -/
structure ICacheEntry (T : Type) where
  expiration : DateStr
  value : T
deriving DecidableEq, Repr

/-- The raw string under the cache key, as seen through `JSON.parse`: either
it parses to an entry or parsing throws. -/
inductive RawCell (T : Type) where
  | parsed (entry : ICacheEntry T)
  | malformed (s : String)
deriving DecidableEq, Repr

/-- Model of `JSON.parse` on a stored cell: `none` models the thrown
exception caught by `getData`'s try/catch. -/
def jsonParse {T : Type} : RawCell T → Option (ICacheEntry T)
  | .parsed e => some e
  | .malformed _ => none

/-- Model of `JSON.stringify(cacheEntry)`: a JSON-serializable entry always
round-trips (the resulting string parses back to the same entry). -/
def jsonStringify {T : Type} (e : ICacheEntry T) : RawCell T := .parsed e

/-- Log events emitted through `this.log(...)` / `console.error`, one
constructor per call site, abstracting the formatted message text. -/
inductive LogEvent where
  | reloadCleared
  | cacheHit
  | invalidCache
  | cacheExpired
  | cacheUpdated (newExpiration : Int)
  | refreshStarting
  | refreshCompleted
  | refreshError (msg : String)
  | expirationUpdated (n : Int)
deriving DecidableEq, Repr

/-- State of one `CacheManager<T>` instance together with the store cell
under its key and the idle scheduler's queue of registered callbacks. -/
structure CacheState (T : Type) where
  store : Option (RawCell T)
  refreshScheduled : Bool
  expirationSeconds : Int
  pendingCallbacks : Nat
  logs : List LogEvent
deriving DecidableEq, Repr

/-- State right after the constructor runs: `refreshScheduled = false`,
nothing scheduled; the store cell is whatever the host already holds. -/
def mkState {T : Type} (store : Option (RawCell T)) (expirationSeconds : Int) :
    CacheState T :=
  { store := store
    refreshScheduled := false
    expirationSeconds := expirationSeconds
    pendingCallbacks := 0
    logs := [] }

/-- Embedding of `setCache(data)`: computes
`expirationTime = add(new Date(), { seconds: this.expirationSeconds })`,
writes the stringified entry under the key and logs the update. -/
def setCache {T : Type} (now : Int) (data : T) (s : CacheState T) :
    CacheState T :=
  let expirationTime := now + s.expirationSeconds
  { s with
      store := some (jsonStringify { expiration := .valid expirationTime, value := data })
      logs := s.logs ++ [.cacheUpdated expirationTime] }

/-- Embedding of `scheduleRefresh()` up to registering the deferred callback:
if `refreshScheduled` is already true it returns at once; otherwise it sets
the flag and hands one callback to `requestIdleCallbackFn`. -/
def scheduleRefresh {T : Type} (s : CacheState T) : CacheState T :=
  if s.refreshScheduled then s
  else { s with refreshScheduled := true, pendingCallbacks := s.pendingCallbacks + 1 }

/-- Result of running one deferred callback: the new state and the value
passed to `onBackgroundRefresh` (if it was invoked). There is no error
channel: the callback catches every fetch failure itself. -/
structure RefreshOutcome (T : Type) where
  state : CacheState T
  observed : Option T
deriving DecidableEq, Repr

/-- Embedding of the async closure registered by `scheduleRefresh`:
try { fetch; setCache; onBackgroundRefresh } catch { log }
finally { refreshScheduled = false }. Running it consumes one registered
callback. -/
def runDeferredCallback {T : Type} (now : Int) (fetch : Except String T)
    (s : CacheState T) : RefreshOutcome T :=
  let s₁ := { s with logs := s.logs ++ [.refreshStarting] }
  match fetch with
  | .ok freshData =>
      let s₂ := setCache now freshData s₁
      let s₃ := { s₂ with logs := s₂.logs ++ [LogEvent.refreshCompleted] }
      { state := { s₃ with
                    refreshScheduled := false
                    pendingCallbacks := s₃.pendingCallbacks - 1 }
        observed := some freshData }
  | .error e =>
      { state := { s₁ with
                    logs := s₁.logs ++ [.refreshError e]
                    refreshScheduled := false
                    pendingCallbacks := s₁.pendingCallbacks - 1 }
        observed := none }

deriving instance DecidableEq for Except

/-- Result of one `getData` call: the settled promise and the new state. -/
structure GetDataOutcome (T : Type) where
  result : Except String T
  state : CacheState T
deriving DecidableEq, Repr

/-- The synchronous-fetch tail of `getData`: `await this.fetchFunction()`
then `setCache` on success; a rejected fetch propagates and writes nothing. -/
def fetchAndStore {T : Type} (now : Int) (fetch : Except String T)
    (s : CacheState T) : GetDataOutcome T :=
  match fetch with
  | .ok freshData => { result := .ok freshData, state := setCache now freshData s }
  | .error e => { result := .error e, state := s }

/-- Embedding of `getData(reload)`. `truthy` models JavaScript truthiness of
the cached value of type `T`; `now` is the call time; `fetch` is the outcome
the fetch function would produce if invoked synchronously on this call. -/
def getData {T : Type} (truthy : T → Bool) (now : Int) (fetch : Except String T)
    (reload : Bool) (s : CacheState T) : GetDataOutcome T :=
  let s₁ :=
    if reload then
      { s with store := none, logs := s.logs ++ [.reloadCleared] }
    else s
  let cacheItem := s₁.store
  let parsedEntry : Option (ICacheEntry T) := cacheItem.bind jsonParse
  let s₂ :=
    match cacheItem, parsedEntry with
    | some _, some _ => { s₁ with logs := s₁.logs ++ [.cacheHit] }
    | some _, none => { s₁ with logs := s₁.logs ++ [.invalidCache] }
    | none, _ => s₁
  let cachedValue : Option T := parsedEntry.map (fun e => e.value)
  let expiration : Option Int :=
    match parsedEntry with
    | some e => parseDate e.expiration
    | none => some now
  match cachedValue with
  | some v =>
      if truthy v then
        if dateGt now expiration then
          let s₃ := { s₂ with logs := s₂.logs ++ [.cacheExpired] }
          { result := .ok v, state := scheduleRefresh s₃ }
        else
          { result := .ok v, state := s₂ }
      else
        fetchAndStore now fetch s₂
  | none => fetchAndStore now fetch s₂

/-- Embedding of `updateExpiration(newExpirationSeconds)`: replaces the TTL
and logs the change. -/
def updateExpiration {T : Type} (n : Int) (s : CacheState T) : CacheState T :=
  { s with expirationSeconds := n, logs := s.logs ++ [.expirationUpdated n] }

/-- The value `getData` would find usable in a store cell: the cell parses
and its value is truthy. `none` means the synchronous-fetch branch runs. -/
def usableValue {T : Type} (truthy : T → Bool) : Option (RawCell T) → Option T
  | some cell =>
      match jsonParse cell with
      | some e => if truthy e.value then some e.value else none
      | none => none
  | none => none

/-! Helper lemmas shared by the claim theorems. -/

/-- A cache hit on a parsed, truthy, not-yet-expired entry returns the stored
value and only appends the hit log entry. -/
theorem getData_hit_fresh {T : Type} (truthy : T → Bool) (now te : Int) (v : T)
    (fetch : Except String T) (s : CacheState T)
    (hstore : s.store = some (.parsed { expiration := .valid te, value := v }))
    (htruthy : truthy v = true) (hfresh : now ≤ te) :
    getData truthy now fetch false s =
      { result := .ok v, state := { s with logs := s.logs ++ [.cacheHit] } } := by
  have hnot : ¬ (te < now) := not_lt.mpr hfresh
  simp [getData, hstore, htruthy, jsonParse, parseDate, dateGt, hnot]

/-- A cache hit on a parsed, truthy, expired entry returns the stale value
and runs `scheduleRefresh` on the state. -/
theorem getData_hit_stale {T : Type} (truthy : T → Bool) (now te : Int) (v : T)
    (fetch : Except String T) (s : CacheState T)
    (hstore : s.store = some (.parsed { expiration := .valid te, value := v }))
    (htruthy : truthy v = true) (hstale : te < now) :
    getData truthy now fetch false s =
      { result := .ok v
        state := scheduleRefresh
          { s with logs := s.logs ++ [.cacheHit] ++ [.cacheExpired] } } := by
  simp [getData, hstore, htruthy, jsonParse, parseDate, dateGt, hstale]

/-- Fields of `scheduleRefresh` when the guard flag is down. -/
theorem scheduleRefresh_idle {T : Type} (s : CacheState T)
    (h : s.refreshScheduled = false) :
    scheduleRefresh s =
      { s with refreshScheduled := true
               pendingCallbacks := s.pendingCallbacks + 1 } := by
  simp [scheduleRefresh, h]

/-- Reloading first clears the store cell and logs, then proceeds exactly as
a non-reload call on the cleared state. -/
theorem getData_reload {T : Type} (truthy : T → Bool) (now : Int)
    (fetch : Except String T) (s : CacheState T) :
    getData truthy now fetch true s =
      getData truthy now fetch false
        { s with store := none, logs := s.logs ++ [.reloadCleared] } := by
  simp [getData]

/-- An empty store cell sends `getData` to the synchronous-fetch branch. -/
theorem getData_empty {T : Type} (truthy : T → Bool) (now : Int)
    (fetch : Except String T) (s : CacheState T) (hstore : s.store = none) :
    getData truthy now fetch false s = fetchAndStore now fetch s := by
  simp [getData, hstore]

/-- A non-parseable store cell is logged and treated as a miss: `getData`
runs the synchronous-fetch branch. -/
theorem getData_malformed {T : Type} (truthy : T → Bool) (now : Int)
    (fetch : Except String T) (s : CacheState T) (str : String)
    (hstore : s.store = some (.malformed str)) :
    getData truthy now fetch false s =
      fetchAndStore now fetch { s with logs := s.logs ++ [.invalidCache] } := by
  simp [getData, hstore, jsonParse]

/-- A parsed entry with a falsy value fails the `if (cachedValue)` test and
sends `getData` to the synchronous-fetch branch. -/
theorem getData_falsy {T : Type} (truthy : T → Bool) (now : Int)
    (fetch : Except String T) (s : CacheState T) (e : ICacheEntry T)
    (hstore : s.store = some (.parsed e)) (hfalsy : truthy e.value = false) :
    getData truthy now fetch false s =
      fetchAndStore now fetch { s with logs := s.logs ++ [.cacheHit] } := by
  simp [getData, hstore, hfalsy, jsonParse]

/-- A parsed, truthy entry whose expiration string fails to parse as a date
compares as unexpired (NaN comparison) and is returned without a refresh. -/
theorem getData_hit_baddate {T : Type} (truthy : T → Bool) (now : Int)
    (fetch : Except String T) (s : CacheState T) (str : String) (v : T)
    (hstore : s.store = some (.parsed { expiration := .invalid str, value := v }))
    (htruthy : truthy v = true) :
    getData truthy now fetch false s =
      { result := .ok v, state := { s with logs := s.logs ++ [.cacheHit] } } := by
  simp [getData, hstore, htruthy, jsonParse, parseDate, dateGt]

/-- C1 counterexample: entry written at time 0 with TTL = 5 holding the
truthy value 7; `getData false` at time 5 = write-time + TTL (so "≥") returns
the value but schedules NO deferred refresh, because the code tests the
strict `new Date() > expiration`. -/
theorem C1_boundary_counterexample :
    (getData (fun v : Int => v != 0) 5 (Except.ok 99) false
        (setCache 0 7 (mkState none 5))).result = Except.ok 7 ∧
    (getData (fun v : Int => v != 0) 5 (Except.ok 99) false
        (setCache 0 7 (mkState none 5))).state.pendingCallbacks = 0 ∧
    (getData (fun v : Int => v != 0) 5 (Except.ok 99) false
        (setCache 0 7 (mkState none 5))).state.refreshScheduled = false := by
  refine ⟨rfl, rfl, rfl⟩

/-- C1 (amended): for an entry written at time t₀ with TTL = N holding a
truthy value, while no refresh is pending, `getData false` at time
now ≤ t₀ + N returns the stored value and schedules no refresh; at time
now > t₀ + N (strictly after expiration) it schedules exactly one deferred
refresh and still returns the stored stale value without consulting the
fetch function (the result is the same for every fetch outcome). -/
theorem C1_expiration_boundary {T : Type} (truthy : T → Bool)
    (t₀ now N : Int) (v : T) (fetch : Except String T) (s : CacheState T)
    (htruthy : truthy v = true) (hN : s.expirationSeconds = N)
    (hflag : s.refreshScheduled = false) :
    (getData truthy now fetch false (setCache t₀ v s)).result = Except.ok v ∧
    (getData truthy now fetch false (setCache t₀ v s)).state.store =
      (setCache t₀ v s).store ∧
    (now ≤ t₀ + N →
      (getData truthy now fetch false (setCache t₀ v s)).state.pendingCallbacks =
        s.pendingCallbacks ∧
      (getData truthy now fetch false (setCache t₀ v s)).state.refreshScheduled =
        false) ∧
    (t₀ + N < now →
      (getData truthy now fetch false (setCache t₀ v s)).state.pendingCallbacks =
        s.pendingCallbacks + 1 ∧
      (getData truthy now fetch false (setCache t₀ v s)).state.refreshScheduled =
        true) := by
  have hstore : (setCache t₀ v s).store =
      some (.parsed { expiration := .valid (t₀ + N), value := v }) := by
    simp [setCache, jsonStringify, hN]
  rcases le_or_lt now (t₀ + N) with hle | hgt
  · rw [getData_hit_fresh truthy now (t₀ + N) v fetch _ hstore htruthy hle]
    refine ⟨rfl, rfl, fun _ => ⟨by simp [setCache], by simp [setCache, hflag]⟩,
      fun h => absurd h (not_lt.mpr hle)⟩
  · rw [getData_hit_stale truthy now (t₀ + N) v fetch _ hstore htruthy hgt]
    have hflag' : ({ setCache t₀ v s with
        logs := (setCache t₀ v s).logs ++ [.cacheHit] ++ [.cacheExpired] } :
          CacheState T).refreshScheduled = false := by
      simp [setCache, hflag]
    rw [scheduleRefresh_idle _ hflag']
    refine ⟨rfl, rfl, fun h => absurd hgt (not_lt.mpr h),
      fun _ => ⟨by simp [setCache], rfl⟩⟩

/-- C1 witness: TTL = 5, write at 0, reads at 3 (fresh) and at 9 (stale). -/
theorem C1_expiration_boundary_witness :
    ((fun v : Int => v != 0) 7 = true ∧
      (mkState (T := Int) none 5).expirationSeconds = 5 ∧
      (mkState (T := Int) none 5).refreshScheduled = false) ∧
    ((getData (fun v : Int => v != 0) 9 (Except.ok 99) false
        (setCache 0 7 (mkState none 5))).state.pendingCallbacks =
      (mkState (T := Int) none 5).pendingCallbacks + 1) := by
  refine ⟨⟨by decide, rfl, rfl⟩, ?_⟩
  exact ((C1_expiration_boundary (fun v : Int => v != 0) 0 9 5 7 (Except.ok 99)
    (mkState none 5) (by decide) rfl rfl).2.2.2 (by decide)).1

/-- C2: while `refreshScheduled` is true, `scheduleRefresh` is a no-op on
the state; consequently two `getData false` calls in succession against an
already-expired, parsed, truthy entry (starting with no pending refresh)
register exactly one deferred callback with the scheduler, and both calls
return the stale value. -/
theorem C2_at_most_one_refresh {T : Type} (truthy : T → Bool)
    (now₁ now₂ te : Int) (v : T) (f₁ f₂ : Except String T) (s : CacheState T)
    (hstore : s.store = some (.parsed { expiration := .valid te, value := v }))
    (htruthy : truthy v = true) (h₁ : te < now₁) (h₂ : te < now₂)
    (hflag : s.refreshScheduled = false) :
    (∀ s' : CacheState T, s'.refreshScheduled = true → scheduleRefresh s' = s') ∧
    (getData truthy now₂ f₂ false
        (getData truthy now₁ f₁ false s).state).state.pendingCallbacks =
      s.pendingCallbacks + 1 ∧
    (getData truthy now₁ f₁ false s).result = Except.ok v ∧
    (getData truthy now₂ f₂ false
        (getData truthy now₁ f₁ false s).state).result = Except.ok v := by
  refine ⟨fun s' h => by simp [scheduleRefresh, h], ?_, ?_, ?_⟩ <;>
      rw [getData_hit_stale truthy now₁ te v f₁ s hstore htruthy h₁,
        scheduleRefresh_idle _ (by simp [hflag])]
  all_goals
    try rw [getData_hit_stale truthy now₂ te v f₂ _ (by simp [hstore]) htruthy h₂]
  all_goals simp [scheduleRefresh]

/-- C2 witness: entry expired at 5, two reads at 6 and 7 with no pending
refresh; exactly one callback ends up registered. -/
theorem C2_at_most_one_refresh_witness :
    ((mkState (T := Int)
        (some (.parsed { expiration := .valid 5, value := 7 })) 5).store =
      some (.parsed { expiration := .valid 5, value := 7 }) ∧
      (fun v : Int => v != 0) 7 = true ∧ (5 : Int) < 6 ∧ (5 : Int) < 7 ∧
      (mkState (T := Int)
        (some (.parsed { expiration := .valid 5, value := 7 })) 5).refreshScheduled
        = false) ∧
    (getData (fun v : Int => v != 0) 7 (Except.ok 99) false
        (getData (fun v : Int => v != 0) 6 (Except.ok 99) false
          (mkState (some (.parsed { expiration := .valid 5, value := 7 })) 5)).state
      ).state.pendingCallbacks =
      (mkState (T := Int)
        (some (.parsed { expiration := .valid 5, value := 7 })) 5).pendingCallbacks
        + 1 := by
  refine ⟨⟨rfl, by decide, by decide, by decide, rfl⟩, ?_⟩
  exact (C2_at_most_one_refresh (fun v : Int => v != 0) 6 7 5 7
    (Except.ok 99) (Except.ok 99) _ rfl (by decide) (by decide) (by decide)
    rfl).2.1

/-- C3: a deferred refresh callback always resets `refreshScheduled` to
false on completion; when its fetch fails, the failure is only logged — the
store is untouched, the background observer is not invoked, and no error is
returned on any channel. -/
theorem C3_deferred_failure_recovery {T : Type} (now : Int)
    (fetch : Except String T) (s : CacheState T) :
    (runDeferredCallback now fetch s).state.refreshScheduled = false ∧
    (∀ e : String, fetch = .error e →
      (runDeferredCallback now fetch s).state.store = s.store ∧
      (runDeferredCallback now fetch s).observed = none ∧
      LogEvent.refreshError e ∈ (runDeferredCallback now fetch s).state.logs) := by
  cases fetch <;> simp [runDeferredCallback, setCache]

/-- C3 witness: a failing deferred refresh at a concrete state. -/
theorem C3_deferred_failure_recovery_witness :
    ((Except.error "boom" : Except String Int) = Except.error "boom") ∧
    (runDeferredCallback 8 (Except.error "boom")
        (mkState (T := Int) none 5)).state.refreshScheduled = false ∧
    (runDeferredCallback 8 (Except.error "boom")
        (mkState (T := Int) none 5)).state.store = none := by
  have h := C3_deferred_failure_recovery (T := Int) 8 (Except.error "boom")
    (mkState none 5)
  exact ⟨rfl, h.1, (h.2 "boom" rfl).1⟩

/-- C4: a `getData` call settles with an error exactly when the
synchronous-fetch branch runs (no usable cached value after the optional
reload) and the fetch fails there; in that case no cache entry is written
(the store cell is whatever the reload step left). -/
theorem C4_sync_failure_only_path {T : Type} (truthy : T → Bool) (now : Int)
    (fetch : Except String T) (reload : Bool) (s : CacheState T) (e : String) :
    ((getData truthy now fetch reload s).result = Except.error e ↔
      usableValue truthy (if reload then none else s.store) = none ∧
        fetch = Except.error e) ∧
    ((getData truthy now fetch reload s).result = Except.error e →
      (getData truthy now fetch reload s).state.store =
        (if reload then none else s.store)) := by
  cases reload
  · rcases hstore : s.store with _ | cell
    · rw [getData_empty truthy now fetch s hstore]
      cases fetch <;> simp [fetchAndStore, usableValue, hstore]
    · rcases cell with entry | str
      · rcases entry with ⟨exp, v⟩
        rcases hv : truthy v with _ | _
        · rw [getData_falsy truthy now fetch s ⟨exp, v⟩ hstore hv]
          cases fetch <;>
            simp [fetchAndStore, usableValue, jsonParse, hstore, hv, setCache]
        · rcases exp with te | str
          · rcases le_or_lt now te with hle | hgt
            · rw [getData_hit_fresh truthy now te v fetch s hstore hv hle]
              simp [usableValue, jsonParse, hstore, hv]
            · rw [getData_hit_stale truthy now te v fetch s hstore hv hgt]
              simp [usableValue, jsonParse, hstore, hv]
          · rw [getData_hit_baddate truthy now fetch s str v hstore hv]
            simp [usableValue, jsonParse, hstore, hv]
      · rw [getData_malformed truthy now fetch s str hstore]
        cases fetch <;>
          simp [fetchAndStore, usableValue, jsonParse, hstore, setCache]
  · rw [getData_reload, getData_empty truthy now fetch _ rfl]
    cases fetch <;> simp [fetchAndStore, usableValue, setCache]

/-- C4 witness: empty store, failing fetch — the error reaches the caller
and nothing is written. -/
theorem C4_sync_failure_only_path_witness :
    (getData (fun v : Int => v != 0) 3 (Except.error "down") false
        (mkState none 5)).result = Except.error "down" ∧
    (getData (fun v : Int => v != 0) 3 (Except.error "down") false
        (mkState none 5)).state.store = none := by
  have h := C4_sync_failure_only_path (fun v : Int => v != 0) 3
    (Except.error "down") false (mkState none 5) "down"
  have hres : (getData (fun v : Int => v != 0) 3 (Except.error "down") false
      (mkState (T := Int) none 5)).result = Except.error "down" :=
    h.1.mpr ⟨rfl, rfl⟩
  exact ⟨hres, h.2 hres⟩

/-- C5: a parsed entry whose value is falsy is treated as a miss even when
unexpired: the fetch runs synchronously, its value overwrites the entry with
a fresh expiration, and the fresh value is returned. -/
theorem C5_falsy_value_is_miss {T : Type} (truthy : T → Bool) (now : Int)
    (entry : ICacheEntry T) (w : T) (s : CacheState T)
    (hstore : s.store = some (.parsed entry)) (hfalsy : truthy entry.value = false) :
    (getData truthy now (Except.ok w) false s).result = Except.ok w ∧
    (getData truthy now (Except.ok w) false s).state.store =
      some (.parsed { expiration := .valid (now + s.expirationSeconds)
                      value := w }) := by
  rw [getData_falsy truthy now (Except.ok w) s entry hstore hfalsy]
  simp [fetchAndStore, setCache, jsonStringify]

/-- C5 witness: unexpired entry holding the falsy value 0 is overwritten by
the synchronously fetched 99. -/
theorem C5_falsy_value_is_miss_witness :
    ((mkState (T := Int)
        (some (.parsed { expiration := .valid 100, value := 0 })) 5).store =
      some (.parsed { expiration := .valid 100, value := 0 }) ∧
      (fun v : Int => v != 0) (0 : Int) = false) ∧
    (getData (fun v : Int => v != 0) 1 (Except.ok 99) false
        (mkState (some (.parsed { expiration := .valid 100, value := 0 })) 5)
      ).result = Except.ok 99 := by
  exact ⟨⟨rfl, by decide⟩,
    (C5_falsy_value_is_miss (fun v : Int => v != 0) 1
      { expiration := .valid 100, value := 0 } 99 _ rfl (by decide)).1⟩

/-- C6: a non-parseable store cell makes `getData false` behave exactly as
on an empty store: same settled result, same final store cell, same
scheduling state; on a successful fetch it writes a fresh valid entry
expiring at now + TTL and returns the fetched value. -/
theorem C6_malformed_is_miss {T : Type} (truthy : T → Bool) (now : Int)
    (fetch : Except String T) (str : String) (s : CacheState T)
    (hstore : s.store = some (.malformed str)) :
    ((getData truthy now fetch false s).result =
      (getData truthy now fetch false { s with store := none }).result ∧
     (getData truthy now fetch false s).state.pendingCallbacks =
      (getData truthy now fetch false { s with store := none }).state.pendingCallbacks) ∧
    (∀ w : T, fetch = .ok w →
      (getData truthy now fetch false s).result = Except.ok w ∧
      (getData truthy now fetch false s).state.store =
        some (.parsed { expiration := .valid (now + s.expirationSeconds)
                        value := w })) := by
  rw [getData_malformed truthy now fetch s str hstore,
    getData_empty truthy now fetch { s with store := none } rfl]
  cases fetch <;> simp [fetchAndStore, setCache, jsonStringify]

/-- C6 witness: garbage in the store, successful fetch of 99. -/
theorem C6_malformed_is_miss_witness :
    ((mkState (T := Int) (some (.malformed "not json")) 5).store =
      some (.malformed "not json") ∧
      (Except.ok (99 : Int) : Except String Int) = Except.ok 99) ∧
    (getData (fun v : Int => v != 0) 2 (Except.ok 99) false
        (mkState (some (.malformed "not json")) 5)).result = Except.ok 99 ∧
    (getData (fun v : Int => v != 0) 2 (Except.ok 99) false
        (mkState (some (.malformed "not json")) 5)).state.store =
      some (.parsed { expiration := .valid 7, value := 99 }) := by
  exact ⟨⟨rfl, rfl⟩,
    (C6_malformed_is_miss (fun v : Int => v != 0) 2 (Except.ok 99)
      "not json" (mkState (some (.malformed "not json")) 5) rfl).2 99 rfl⟩

/-- C7: `getData true` clears the stored entry before lookup, so its settled
result is exactly the synchronous fetch outcome, never the previously stored
value; on success the store holds the freshly written entry, on failure it
stays cleared. -/
theorem C7_reload_semantics {T : Type} (truthy : T → Bool) (now : Int)
    (fetch : Except String T) (s : CacheState T) :
    (getData truthy now fetch true s).result = fetch ∧
    (∀ w : T, fetch = .ok w →
      (getData truthy now fetch true s).state.store =
        some (.parsed { expiration := .valid (now + s.expirationSeconds)
                        value := w })) ∧
    (∀ e : String, fetch = .error e →
      (getData truthy now fetch true s).state.store = none) := by
  rw [getData_reload, getData_empty truthy now fetch _ rfl]
  cases fetch <;> simp [fetchAndStore, setCache, jsonStringify]

/-- C7 witness: a valid unexpired entry holding 7 is discarded; the reload
returns the fresh 99. -/
theorem C7_reload_semantics_witness :
    ((Except.ok (99 : Int) : Except String Int) = Except.ok 99) ∧
    (getData (fun v : Int => v != 0) 1 (Except.ok 99) true
        (mkState (some (.parsed { expiration := .valid 100, value := 7 })) 5)
      ).result = Except.ok 99 ∧
    (getData (fun v : Int => v != 0) 1 (Except.ok 99) true
        (mkState (some (.parsed { expiration := .valid 100, value := 7 })) 5)
      ).state.store = some (.parsed { expiration := .valid 6, value := 99 }) := by
  have h := C7_reload_semantics (fun v : Int => v != 0) 1 (Except.ok 99)
    (mkState (some (.parsed { expiration := .valid 100, value := 7 })) 5)
  exact ⟨rfl, h.1, h.2.1 99 rfl⟩

/-- C8: `updateExpiration` changes only the TTL and its log entry: the
stored cell (including its expiration field), the guard flag and the
scheduler queue are untouched, and every subsequent `setCache` at time `now`
writes expiration `now + newTTL`. -/
theorem C8_update_expiration_frame {T : Type} (n : Int) (s : CacheState T) :
    (updateExpiration n s).store = s.store ∧
    (updateExpiration n s).refreshScheduled = s.refreshScheduled ∧
    (updateExpiration n s).pendingCallbacks = s.pendingCallbacks ∧
    (updateExpiration n s).expirationSeconds = n ∧
    (∀ (now : Int) (v : T),
      (setCache now v (updateExpiration n s)).store =
        some (.parsed { expiration := .valid (now + n), value := v })) := by
  simp [updateExpiration, setCache, jsonStringify]

/-- C9: serialize-then-deserialize round-trip — writing a truthy value via
`setCache` and reading it back with `getData false` strictly before the
entry's expiration returns exactly the written value. -/
theorem C9_round_trip {T : Type} (truthy : T → Bool) (t₀ now : Int) (v : T)
    (fetch : Except String T) (s : CacheState T)
    (htruthy : truthy v = true) (hbefore : now < t₀ + s.expirationSeconds) :
    (getData truthy now fetch false (setCache t₀ v s)).result = Except.ok v := by
  rw [getData_hit_fresh truthy now (t₀ + s.expirationSeconds) v fetch _
    (by simp [setCache, jsonStringify]) htruthy (le_of_lt hbefore)]

/-- C9 witness: write 7 at time 0 with TTL 5, read at time 3. -/
theorem C9_round_trip_witness :
    ((fun v : Int => v != 0) 7 = true ∧
      (3 : Int) < 0 + (mkState (T := Int) none 5).expirationSeconds) ∧
    (getData (fun v : Int => v != 0) 3 (Except.ok 99) false
        (setCache 0 7 (mkState none 5))).result = Except.ok 7 := by
  exact ⟨⟨by decide, by decide⟩,
    C9_round_trip (fun v : Int => v != 0) 0 3 7 (Except.ok 99)
      (mkState none 5) (by decide) (by decide)⟩

/-- C10: a parsed, truthy entry whose expiration string does not parse as a
date compares as never expired (NaN comparison is false) at every read time:
the stored value is returned, nothing is scheduled, and the entry stays. -/
theorem C10_invalid_date_never_stale {T : Type} (truthy : T → Bool)
    (now : Int) (fetch : Except String T) (str : String) (v : T)
    (s : CacheState T)
    (hstore : s.store = some (.parsed { expiration := .invalid str, value := v }))
    (htruthy : truthy v = true) :
    (getData truthy now fetch false s).result = Except.ok v ∧
    (getData truthy now fetch false s).state.store = s.store ∧
    (getData truthy now fetch false s).state.refreshScheduled =
      s.refreshScheduled ∧
    (getData truthy now fetch false s).state.pendingCallbacks =
      s.pendingCallbacks := by
  rw [getData_hit_baddate truthy now fetch s str v hstore htruthy]
  simp

/-- C10 witness: entry with garbage expiration read far in the future. -/
theorem C10_invalid_date_never_stale_witness :
    ((mkState (T := Int)
        (some (.parsed { expiration := .invalid "garbage", value := 7 })) 5).store =
      some (.parsed { expiration := .invalid "garbage", value := 7 }) ∧
      (fun v : Int => v != 0) 7 = true) ∧
    (getData (fun v : Int => v != 0) 1000000 (Except.ok 99) false
        (mkState (some (.parsed { expiration := .invalid "garbage", value := 7 })) 5)
      ).result = Except.ok 7 ∧
    (getData (fun v : Int => v != 0) 1000000 (Except.ok 99) false
        (mkState (some (.parsed { expiration := .invalid "garbage", value := 7 })) 5)
      ).state.pendingCallbacks =
      (mkState (T := Int)
        (some (.parsed { expiration := .invalid "garbage", value := 7 })) 5
      ).pendingCallbacks := by
  have h := C10_invalid_date_never_stale (fun v : Int => v != 0) 1000000
    (Except.ok 99) "garbage" 7
    (mkState (some (.parsed { expiration := .invalid "garbage", value := 7 })) 5)
    rfl (by decide)
  exact ⟨⟨rfl, by decide⟩, h.1, h.2.2.2⟩

end CacheSpec
